import Mathlib

/-
Verification of the HealthSphere ML API against its specification.

The Python sources under src/ml_api are shallowly embedded: numeric values
become rationals (ℚ) or integers (ℤ), Python dicts become association lists,
exceptions become Except, and the sources of nondeterminism (uuid generation,
random.choice, datetime.now) become explicit parameters.  Each embedded
definition mirrors one Python function and keeps its name.
-/

namespace HealthSphere

/-- Lowercases one ASCII letter; other characters are unchanged.  Models the
effect of Python `str.lower` on the ASCII food names this code base uses. -/
def charLower (c : Char) : Char :=
  match c with
  | 'A' => 'a' | 'B' => 'b' | 'C' => 'c' | 'D' => 'd' | 'E' => 'e' | 'F' => 'f'
  | 'G' => 'g' | 'H' => 'h' | 'I' => 'i' | 'J' => 'j' | 'K' => 'k' | 'L' => 'l'
  | 'M' => 'm' | 'N' => 'n' | 'O' => 'o' | 'P' => 'p' | 'Q' => 'q' | 'R' => 'r'
  | 'S' => 's' | 'T' => 't' | 'U' => 'u' | 'V' => 'v' | 'W' => 'w' | 'X' => 'x'
  | 'Y' => 'y' | 'Z' => 'z' | c => c

/-- Models Python `str.lower` (character-wise lowercasing). -/
def pyLower (s : String) : String := ⟨s.data.map charLower⟩

/-! ## Food recognition service (`food_recognition_service.py`) -/

/-- Nutrition record stored in the static food database
(`FoodRecognitionService._load_food_database`). -/
structure FoodRecord where
  calories : ℚ
  protein : ℚ
  carbs : ℚ
  fat : ℚ
  fiber : ℚ
  vitamins : List String
  confidence_threshold : ℚ
  deriving Repr, DecidableEq

/-- The 8-entry static food table returned by `_load_food_database`. -/
def food_database : List (String × FoodRecord) :=
  [ ("apple", ⟨52, 3/10, 138/10, 2/10, 24/10, ["C", "K"], 8/10⟩),
    ("banana", ⟨89, 11/10, 228/10, 3/10, 26/10, ["B6", "C"], 8/10⟩),
    ("chicken_breast", ⟨165, 31, 0, 36/10, 0, ["B6", "B12"], 7/10⟩),
    ("salmon", ⟨208, 25, 0, 12, 0, ["B12", "D"], 7/10⟩),
    ("rice", ⟨130, 27/10, 28, 3/10, 4/10, ["B1", "B3"], 8/10⟩),
    ("broccoli", ⟨34, 28/10, 66/10, 4/10, 26/10, ["C", "K"], 8/10⟩),
    ("pizza", ⟨266, 11, 33, 10, 23/10, ["B12", "D"], 9/10⟩),
    ("salad", ⟨20, 2, 4, 2/10, 15/10, ["A", "C"], 6/10⟩) ]

/-- Embeds `_calculate_health_score`: a running score starts at 100 and is
mutated by the calorie/protein/fat/fiber threshold branches in source order,
then clamped with `max(0, min(100, score))`. -/
def calculate_health_score (n : FoodRecord) : ℤ :=
  let score : ℤ := 100
  let score := if n.calories > 300 then score - 20
    else if n.calories > 200 then score - 10 else score
  let score := if n.protein > 20 then score + 10
    else if n.protein > 10 then score + 5 else score
  let score := if n.fat > 15 then score - 15
    else if n.fat > 10 then score - 10 else score
  let score := if n.fiber > 5 then score + 10
    else if n.fiber > 2 then score + 5 else score
  max 0 (min 100 score)

/-- Written from the spec's words: the sum of the documented threshold deltas
(>300 kcal −20, >200 kcal −10; >20 g protein +10, >10 g +5; >15 g fat −15,
>10 g −10; >5 g fiber +10, >2 g +5). -/
def healthScoreSpecDelta (n : FoodRecord) : ℤ :=
  (if n.calories > 300 then -20 else if n.calories > 200 then -10 else 0)
  + (if n.protein > 20 then 10 else if n.protein > 10 then 5 else 0)
  + (if n.fat > 15 then -15 else if n.fat > 10 then -10 else 0)
  + (if n.fiber > 5 then 10 else if n.fiber > 2 then 5 else 0)

/-- Written from the spec's words: 100 plus the documented deltas, clamped
to [0, 100]. -/
def healthScoreSpec (n : FoodRecord) : ℤ :=
  max 0 (min 100 (100 + healthScoreSpecDelta n))

/-- Result shape of `get_nutrition_info`. -/
structure NutritionInfoResult where
  food_name : String
  nutrition : FoodRecord
  health_benefits : List String
  preparation_tips : List String
  deriving Repr, DecidableEq

/-- Embeds `_get_health_benefits` (static map with fallback). -/
def get_health_benefits (food_name : String) : List String :=
  match [ ("apple", ["Rich in fiber", "Contains antioxidants", "Supports heart health"]),
          ("banana", ["High in potassium", "Good source of vitamin B6", "Supports digestion"]),
          ("chicken_breast", ["High-quality protein", "Low in fat", "Rich in B vitamins"]),
          ("salmon", ["High in omega-3 fatty acids", "Excellent protein source", "Rich in vitamin D"]),
          ("broccoli", ["High in vitamin C", "Contains antioxidants", "Supports immune system"])
        ].lookup food_name with
  | some l => l
  | none => ["Nutritious food"]

/-- Embeds `_get_preparation_tips` (static map with fallback). -/
def get_preparation_tips (food_name : String) : List String :=
  match [ ("chicken_breast", ["Cook to internal temperature of 165F", "Let rest before slicing"]),
          ("salmon", ["Cook until flaky", "Dont overcook"]),
          ("broccoli", ["Steam for 3-5 minutes", "Keep bright green color"]),
          ("rice", ["Use 2:1 water to rice ratio", "Let steam after cooking"])
        ].lookup food_name with
  | some l => l
  | none => ["Enjoy fresh"]

/-- Embeds `get_nutrition_info`: a case-insensitive lookup in the static food
table; an absent key raises `ValueError` (modelled as `Except.error`). -/
def get_nutrition_info (food_name : String) : Except String NutritionInfoResult :=
  match food_database.lookup (pyLower food_name) with
  | none => .error ("Food " ++ food_name ++ " not found in database")
  | some r => .ok ⟨food_name, r, get_health_benefits food_name, get_preparation_tips food_name⟩

/-! ## Risk forecasting service (`risk_forecasting_service.py`) -/

/-- Health-metric fields read by `_mock_risk_calculation`; the default values
mirror the `dict.get` defaults in the source. -/
structure HealthMetrics where
  weight : ℚ := 70
  height : ℚ := 170
  blood_pressure_systolic : ℚ := 120
  deriving Repr, DecidableEq

/-- Lifestyle fields read by `_mock_risk_calculation`; the default values
mirror the `dict.get` defaults in the source. -/
structure LifestyleData where
  age : ℚ := 40
  physical_activity_level : String := "moderate"
  deriving Repr, DecidableEq

/-- Embeds `_mock_risk_calculation`: a running risk starts at 0.1 and is
mutated by the age / systolic-BP / BMI / activity-level branches in source
order, then clamped with `max(0, min(1, base_risk))`. -/
def mock_risk_calculation (hm : HealthMetrics) (ld : LifestyleData) : ℚ :=
  let base_risk : ℚ := 1/10
  let base_risk := if ld.age > 65 then base_risk + 1/10
    else if ld.age > 45 then base_risk + 1/20 else base_risk
  let base_risk := if hm.blood_pressure_systolic > 140 then base_risk + 15/100
    else if hm.blood_pressure_systolic > 130 then base_risk + 8/100 else base_risk
  let bmi := hm.weight / ((hm.height / 100) ^ 2)
  let base_risk := if bmi > 30 then base_risk + 12/100
    else if bmi > 25 then base_risk + 6/100 else base_risk
  let base_risk := if ld.physical_activity_level = "sedentary" then base_risk + 8/100
    else if ld.physical_activity_level = "very_active" ∨ ld.physical_activity_level = "active"
      then base_risk - 1/20 else base_risk
  max 0 (min 1 base_risk)

/-- Written from the spec's words: the sum of the documented risk increments
(age > 65 +0.10, 45-65 +0.05; systolic > 140 +0.15, > 130 +0.08; BMI > 30
+0.12, > 25 +0.06; sedentary +0.08, active or very_active -0.05). -/
def riskSpecIncrement (hm : HealthMetrics) (ld : LifestyleData) : ℚ :=
  (if ld.age > 65 then 1/10 else if ld.age > 45 then 1/20 else 0)
  + (if hm.blood_pressure_systolic > 140 then 15/100
     else if hm.blood_pressure_systolic > 130 then 8/100 else 0)
  + (if hm.weight / ((hm.height / 100) ^ 2) > 30 then 12/100
     else if hm.weight / ((hm.height / 100) ^ 2) > 25 then 6/100 else 0)
  + (if ld.physical_activity_level = "sedentary" then 8/100
     else if ld.physical_activity_level = "very_active" ∨ ld.physical_activity_level = "active"
       then -(1/20) else 0)

/-- Written from the spec's words: 0.10 plus the documented increments,
clamped to [0, 1]. -/
def riskSpec (hm : HealthMetrics) (ld : LifestyleData) : ℚ :=
  max 0 (min 1 (1/10 + riskSpecIncrement hm ld))

/-- Models Python `int()` on a rational: truncation toward zero. -/
def pythonInt (q : ℚ) : ℤ := if 0 ≤ q then ⌊q⌋ else ⌈q⌉

/-- Embeds `_calculate_overall_health_score`: average the risk probabilities,
apply `int((1 - avg_risk) * 100)`, and clamp with `max(0, min(100, ...))`. -/
def calculate_overall_health_score (risks : List ℚ) : ℤ :=
  let avg_risk := risks.sum / (risks.length : ℚ)
  let health_score := pythonInt ((1 - avg_risk) * 100)
  max 0 (min 100 health_score)

/-! ## Activity detection service (`activity_detection_service.py`) -/

/-- Integer square root by downward search (structural recursion, so that
concrete values reduce); `natSqrtAux n k` is the largest `j ≤ k` with
`j * j ≤ n` (or 0). -/
def natSqrtAux (n : ℕ) : ℕ → ℕ
  | 0 => 0
  | k + 1 => if (k + 1) * (k + 1) ≤ n then k + 1 else natSqrtAux n k

/-- Integer square root: the largest `j` with `j * j ≤ n`. -/
def natSqrt (n : ℕ) : ℕ := natSqrtAux n n

/-- Models `numpy.sqrt` on the rationals this development evaluates it at:
exact on rationals whose numerator and denominator are perfect squares
(all concrete inputs used here). -/
def ratSqrt (q : ℚ) : ℚ := (natSqrt q.num.toNat : ℚ) / (natSqrt q.den : ℚ)

/-- Models `numpy.mean`. -/
def npMean (l : List ℚ) : ℚ := l.sum / (l.length : ℚ)

/-- Population variance, the quantity under the square root in `numpy.std`. -/
def npVar (l : List ℚ) : ℚ := npMean (l.map fun v => (v - npMean l) ^ 2)

/-- Models `numpy.std` (population standard deviation). -/
def npStd (l : List ℚ) : ℚ := ratSqrt (npVar l)

/-- Models `numpy.max` on a non-empty array. -/
def npMax (l : List ℚ) : ℚ :=
  match l with
  | [] => 0
  | h :: t => t.foldl max h

/-- Models `numpy.min` on a non-empty array. -/
def npMin (l : List ℚ) : ℚ :=
  match l with
  | [] => 0
  | h :: t => t.foldl min h

/-- Per-axis sensor readings (the `{'x': .., 'y': .., 'z': ..}` dicts that the
route builds and passes to the service). -/
structure SensorAxes where
  x : List ℚ
  y : List ℚ
  z : List ℚ
  deriving Repr, DecidableEq

/-- One axis block of `_extract_features`: `[mean, std, max, min]` for a
non-empty (truthy) axis list, `[0, 0, 0, 0]` otherwise. -/
def axisFeatures (l : List ℚ) : List ℚ :=
  if l.isEmpty then [0, 0, 0, 0] else [npMean l, npStd l, npMax l, npMin l]

/-- Element-wise accelerometer magnitude
`sqrt(x_i^2 + y_i^2 + z_i^2)` (`acc_magnitude` in `_extract_features`). -/
def magnitudeList (x y z : List ℚ) : List ℚ :=
  (x.zip (y.zip z)).map fun p => ratSqrt (p.1 ^ 2 + p.2.1 ^ 2 + p.2.2 ^ 2)

/-- Embeds `_extract_features`: four statistics for each of the three
accelerometer axes, then each of the three gyroscope axes, then the mean and
std of the accelerometer magnitude (26 entries; the magnitude block falls
back to `[0, 0]` when any accelerometer axis is empty/falsy). -/
def extract_features (acc gyro : SensorAxes) : List ℚ :=
  axisFeatures acc.x ++ axisFeatures acc.y ++ axisFeatures acc.z
  ++ axisFeatures gyro.x ++ axisFeatures gyro.y ++ axisFeatures gyro.z
  ++ (if acc.x.isEmpty || acc.y.isEmpty || acc.z.isEmpty then [0, 0]
      else [npMean (magnitudeList acc.x acc.y acc.z),
            npStd (magnitudeList acc.x acc.y acc.z)])

/-- Embeds `_mock_prediction`: reads `features[0]` and `features[1]`
(defaulting to 0 when absent) into variables named `acc_magnitude_mean` /
`acc_magnitude_std` in the source, and runs the threshold ladder on them. -/
def mock_prediction (features : List ℚ) : String × ℚ :=
  let acc_magnitude_mean := features.getD 0 0
  let acc_magnitude_std := features.getD 1 0
  if acc_magnitude_mean > 1/2 ∧ acc_magnitude_std > 3/10 then ("running", 17/20)
  else if acc_magnitude_mean > 1/5 ∧ acc_magnitude_std > 1/10 then ("walking", 4/5)
  else if acc_magnitude_mean < 1/10 ∧ acc_magnitude_std < 1/20 then ("sitting", 9/10)
  else ("standing", 3/4)

/-- Written from the spec's words: the fixed threshold ladder on a magnitude
mean and magnitude std (mean>0.5 & std>0.3 → running@0.85; mean>0.2 &
std>0.1 → walking@0.80; mean<0.1 & std<0.05 → sitting@0.90; else
standing@0.75). -/
def thresholdLadder (mean std : ℚ) : String × ℚ :=
  if mean > 1/2 ∧ std > 3/10 then ("running", 17/20)
  else if mean > 1/5 ∧ std > 1/10 then ("walking", 4/5)
  else if mean < 1/10 ∧ std < 1/20 then ("sitting", 9/10)
  else ("standing", 3/4)

/-- Embeds `_calculate_intensity`. -/
def calculate_intensity (features : List ℚ) : String :=
  if features.length < 2 then "unknown"
  else
    let acc_magnitude_mean := features.getD 0 0
    let acc_magnitude_std := features.getD 1 0
    if acc_magnitude_mean > 1/2 ∨ acc_magnitude_std > 2/5 then "high"
    else if acc_magnitude_mean > 1/5 ∨ acc_magnitude_std > 3/20 then "moderate"
    else "low"

/-- Base calories per minute per activity (`_estimate_calories`), with the
`dict.get` default 2.0. -/
def base_calories (activity : String) : ℚ :=
  match [ ("walking", (35 : ℚ)/10), ("running", 8), ("cycling", 6), ("swimming", 7),
          ("sitting", 1), ("standing", 12/10), ("lying_down", 8/10),
          ("stairs_up", 9), ("stairs_down", 4), ("jumping", 10) ].lookup activity with
  | some c => c
  | none => 2

/-- Intensity multiplier table in `_estimate_calories`, with default 1.0. -/
def intensity_multiplier (intensity : String) : ℚ :=
  match [ ("low", (7 : ℚ)/10), ("moderate", 1), ("high", 13/10) ].lookup intensity with
  | some m => m
  | none => 1

/-- Models Python `round(q, 1)` via round-half-up on tenths (the concrete
values this development evaluates are not ties, where banker rounding could
differ). -/
def pyRound1 (q : ℚ) : ℚ := (round (q * 10) : ℚ) / 10

/-- Embeds `_estimate_calories`. -/
def estimate_calories (activity : String) (duration : ℤ) (intensity : String) : ℚ :=
  let calories_per_minute := base_calories activity * intensity_multiplier intensity
  pyRound1 (calories_per_minute * ((duration : ℚ) / 60))

/-- Result record built by `ActivityDetectionService.detect_activity`
(`processing_time_ms`, a fresh random number, is omitted). -/
structure ActivityResult where
  predicted_activity : String
  confidence : ℚ
  top_predictions : List (String × ℚ)
  duration_seconds : ℤ
  intensity_level : String
  estimated_calories : ℚ
  features_extracted : ℕ
  deriving Repr, DecidableEq

/-- Embeds the `self.model is None` fallback path of `detect_activity`: mock
prediction from the extracted features, intensity, and calorie estimate.
This path raises no exception. -/
def detect_activity_fallback (acc gyro : SensorAxes) (duration : ℤ) :
    Except String ActivityResult :=
  let features := extract_features acc gyro
  let p := mock_prediction features
  let intensity := calculate_intensity features
  .ok { predicted_activity := p.1, confidence := p.2,
        top_predictions := [p],
        duration_seconds := duration,
        intensity_level := intensity,
        estimated_calories := estimate_calories p.1 duration intensity,
        features_extracted := features.length }

/-! ## Activity detection routes (`routes/activity_detection.py`) -/

/-- Request body `ActivityData` (pydantic model). -/
structure ActivityData where
  accelerometer_x : List ℚ
  accelerometer_y : List ℚ
  accelerometer_z : List ℚ
  gyroscope_x : List ℚ := []
  gyroscope_y : List ℚ := []
  gyroscope_z : List ℚ := []
  deriving Repr, DecidableEq

/-- Request body `ActivityRequest` (pydantic model). -/
structure ActivityRequest where
  data : ActivityData
  duration_seconds : ℤ
  deriving Repr, DecidableEq

/-- A Python exception escaping the route handler's `try` body: either the
`HTTPException(400, ...)` the handler itself raises, or an `Exception`
propagated from the service call. -/
inductive PyExc where
  | httpExc (status : ℕ) (detail : String)
  | exc (msg : String)
  deriving Repr, DecidableEq

/-- Models `str(e)` in the `except` clause (Starlette prints an
`HTTPException` as `"{status_code}: {detail}"`). -/
def pyStr : PyExc → String
  | .httpExc status detail => toString status ++ ": " ++ detail
  | .exc msg => msg

/-- HTTP error response produced by raising an `HTTPException` out of the
handler. -/
structure HttpFailure where
  status : ℕ
  detail : String
  deriving Repr, DecidableEq

/-- Calls a service on behalf of a route: the service is a parameter so the
theorems can show which outcomes are independent of it. -/
def serviceCall (service : ActivityRequest → Except String ActivityResult)
    (req : ActivityRequest) : Except PyExc ActivityResult :=
  match service req with
  | .ok r => .ok r
  | .error m => .error (.exc m)

/-- Embeds the `POST /activity-detect/` handler `detect_activity`: inside
`try`, fewer than 10 `accelerometer_x` samples raises `HTTPException(400,
"Insufficient sensor data")`, otherwise the service runs; the blanket
`except Exception` catches any exception from the `try` body - including
that `HTTPException`, which subclasses `Exception` - and re-raises
`HTTPException(500, "Activity detection failed: " + str(e))`. -/
def detect_activity_route (service : ActivityRequest → Except String ActivityResult)
    (req : ActivityRequest) : Except HttpFailure ActivityResult :=
  let body : Except PyExc ActivityResult :=
    if req.data.accelerometer_x.length < 10 then
      .error (.httpExc 400 "Insufficient sensor data")
    else
      serviceCall service req
  match body with
  | .ok r => .ok r
  | .error e => .error ⟨500, "Activity detection failed: " ++ pyStr e⟩

/-- One entry of the batch response: `{"sample_id": i, "result": ...}` on
success, `{"sample_id": i, "error": ...}` on a per-item failure. -/
inductive BatchEntry where
  | result (sample_id : ℕ) (r : ActivityResult)
  | errorItem (sample_id : ℕ) (e : String)
  deriving Repr, DecidableEq

/-- True on the `error` entries of a batch response. -/
def BatchEntry.isError : BatchEntry → Bool
  | .result _ _ => false
  | .errorItem _ _ => true

/-- The `for i, request in enumerate(requests)` loop of
`detect_activity_batch`: every item is tried, a failure is recorded in place
and the loop continues. -/
def runBatch (service : ActivityRequest → Except String ActivityResult) :
    ℕ → List ActivityRequest → List BatchEntry
  | _, [] => []
  | i, req :: rest =>
    (match service req with
     | .ok r => BatchEntry.result i r
     | .error e => BatchEntry.errorItem i e) :: runBatch service (i + 1) rest

/-- Batch response data: `{"results": ..., "total_samples": len(results)}`. -/
structure BatchResponse where
  results : List BatchEntry
  total_samples : ℕ
  deriving Repr, DecidableEq

/-- Embeds the `POST /activity-detect/batch` handler `detect_activity_batch`.
Note it performs no minimum-sample validation of its own. -/
def detect_activity_batch (service : ActivityRequest → Except String ActivityResult)
    (reqs : List ActivityRequest) : BatchResponse :=
  let results := runBatch service 0 reqs
  ⟨results, results.length⟩

/-- x-axis readings alternating -2 and 0 (10 samples). -/
def altX : List ℚ := [-2, 0, -2, 0, -2, 0, -2, 0, -2, 0]

/-- Ten zero readings. -/
def zeros10 : List ℚ := [0, 0, 0, 0, 0, 0, 0, 0, 0, 0]

/-- The accelerometer magnitudes of `altX`/`zeros10`/`zeros10`. -/
def altMag : List ℚ := [2, 0, 2, 0, 2, 0, 2, 0, 2, 0]

/-- The concrete accelerometer input used to separate axis-x features from
magnitude features: x alternates -2 and 0, y and z are zero. -/
def c4Acc : SensorAxes := ⟨altX, zeros10, zeros10⟩

/-- Empty gyroscope reading (the route's default when none is sent). -/
def emptyAxes : SensorAxes := ⟨[], [], []⟩

/-- The service as the routes invoke it, on the fallback (`model is None`)
path: the route repacks the request fields into the per-axis dicts. -/
def fallbackService (req : ActivityRequest) : Except String ActivityResult :=
  detect_activity_fallback
    ⟨req.data.accelerometer_x, req.data.accelerometer_y, req.data.accelerometer_z⟩
    ⟨req.data.gyroscope_x, req.data.gyroscope_y, req.data.gyroscope_z⟩
    req.duration_seconds

/-- A request with only 3 accelerometer samples per axis. -/
def shortReq : ActivityRequest := ⟨{ accelerometer_x := [0, 0, 0], accelerometer_y := [0, 0, 0], accelerometer_z := [0, 0, 0] }, 60⟩

/-- A well-formed request with 10 accelerometer samples per axis. -/
def goodReq : ActivityRequest := ⟨{ accelerometer_x := zeros10, accelerometer_y := zeros10, accelerometer_z := zeros10 }, 60⟩

/-! ## Chat service (`chat_service.py`) -/

/-- One stored chat message (`_store_message` appends these dicts). -/
structure ChatMessage where
  message : String
  is_user : Bool
  timestamp : ℕ
  user_id : String
  deriving Repr, DecidableEq

/-- One conversation record as created by `start_conversation`. -/
structure Conversation where
  user_id : String
  context : String
  messages : List ChatMessage
  created_at : ℕ
  last_activity : ℕ
  deriving Repr, DecidableEq

/-- The `self.conversations` dict: an insertion-ordered association list from
conversation id to conversation. -/
abbrev ConversationStore := List (String × Conversation)

/-- Python dict assignment `d[k] = v`: overwrite in place if the key exists,
else append. -/
def storeSet : ConversationStore → String → Conversation → ConversationStore
  | [], k, v => [(k, v)]
  | (k0, v0) :: rest, k, v =>
    if k0 = k then (k, v) :: rest else (k0, v0) :: storeSet rest k v

/-- Embeds `start_conversation`: record user, context, empty message list and
timestamps under a generated id (the id and clock are explicit parameters). -/
def start_conversation (s : ConversationStore) (conversation_id user_id context : String)
    (now : ℕ) : ConversationStore :=
  storeSet s conversation_id ⟨user_id, context, [], now, now⟩

/-- Embeds `get_conversation_history`: `ValueError("Conversation not found")`
for an unknown id, else the message list. -/
def get_conversation_history (s : ConversationStore) (conversation_id : String) :
    Except String (List ChatMessage) :=
  match s.lookup conversation_id with
  | none => .error "Conversation not found"
  | some conv => .ok conv.messages

/-- Embeds `delete_conversation`: remove the id if present, else no-op. -/
def delete_conversation (s : ConversationStore) (conversation_id : String) :
    ConversationStore :=
  s.filter fun p => p.1 != conversation_id

/-- Embeds `_store_message`: return the store unchanged when the id is
absent, else append the message and refresh `last_activity`. -/
def store_message (s : ConversationStore) (conversation_id message : String)
    (is_user : Bool) (user_id : String) (now : ℕ) : ConversationStore :=
  match s.lookup conversation_id with
  | none => s
  | some conv =>
    storeSet s conversation_id
      { conv with messages := conv.messages ++ [⟨message, is_user, now, user_id⟩],
                  last_activity := now }

/-- Metadata of one entry of `self.contexts`. -/
structure ContextInfo where
  description : String
  personality : String
  expertise : List String
  deriving Repr, DecidableEq

/-- The four fixed conversation contexts (`self.contexts`). -/
def contexts : List (String × ContextInfo) :=
  [ ("health_coaching",
     ⟨"General health and wellness coaching", "supportive and knowledgeable",
      ["nutrition", "exercise", "sleep", "stress_management"]⟩),
    ("diabetes_management",
     ⟨"Specialized diabetes care and management", "clinical and precise",
      ["blood_glucose", "medication", "diet", "complications"]⟩),
    ("cardiovascular_health",
     ⟨"Heart health and cardiovascular disease prevention", "encouraging and evidence-based",
      ["blood_pressure", "cholesterol", "exercise", "diet"]⟩),
    ("mental_wellness",
     ⟨"Mental health and emotional well-being support", "empathetic and understanding",
      ["stress", "anxiety", "depression", "mindfulness"]⟩) ]

/-- `self.contexts.get(context, self.contexts["health_coaching"])`. -/
def getContextInfo (context : String) : ContextInfo :=
  match contexts.lookup context with
  | some ci => ci
  | none =>
    ⟨"General health and wellness coaching", "supportive and knowledgeable",
     ["nutrition", "exercise", "sleep", "stress_management"]⟩

/-- `chPre needle hay`: is `needle` a leading segment of `hay`? -/
def chPre : List Char → List Char → Bool
  | [], _ => true
  | _ :: _, [] => false
  | a :: as, b :: bs => a == b && chPre as bs

/-- `chSub needle hay`: does `needle` occur contiguously in `hay`? -/
def chSub (needle : List Char) : List Char → Bool
  | [] => chPre needle []
  | h :: t => chPre needle (h :: t) || chSub needle t

/-- Models the Python substring test `sub in s`. -/
def pyIn (sub s : String) : Bool := chSub sub.data s.data

/-- Models `random.choice` on a non-empty list, with the random draw made an
explicit index parameter. -/
def pyChoice (l : List String) (choice : ℕ) : String := l.getD (choice % l.length) ""

/-- Canned responses of the workout/exercise bucket. -/
def workout_responses : List String :=
  [ "I\x27d be happy to help with your workout routine! Based on your health profile, I recommend starting with low-impact cardio exercises like walking or swimming. Would you like me to create a personalized workout plan for you?",
    "Great question about exercise! For optimal health, aim for at least 150 minutes of moderate-intensity activity per week. I can help you design a program that fits your fitness level and goals.",
    "Exercise is crucial for maintaining good health! Let\x27s discuss your current fitness level and any health conditions to create the best workout plan for you." ]

/-- Canned responses of the diet/food/meal bucket. -/
def diet_responses : List String :=
  [ "Nutrition is a key pillar of good health! I recommend focusing on whole foods like vegetables, lean proteins, and complex carbohydrates. What specific dietary goals are you working towards?",
    "Great question about nutrition! A balanced diet with plenty of fruits, vegetables, and lean proteins can significantly improve your health. I can help you track your meals and suggest healthy alternatives.",
    "Food choices have a huge impact on your health! Let\x27s discuss your current eating habits and create a plan that works for your lifestyle and health goals." ]

/-- Canned responses of the blood-pressure/heart bucket. -/
def bp_responses : List String :=
  [ "Managing cardiovascular health is crucial! Regular exercise, a balanced diet, and stress management can help maintain healthy blood pressure. I recommend monitoring your readings and consulting with your healthcare provider.",
    "Heart health is so important! Lifestyle changes like reducing sodium, increasing physical activity, and managing stress can make a big difference. Would you like tips for heart-healthy lifestyle changes?",
    "Your cardiovascular health is a priority! I can help you understand your risk factors and create a plan to improve your heart health through diet, exercise, and lifestyle modifications." ]

/-- Canned responses of the sleep/insomnia bucket. -/
def sleep_responses : List String :=
  [ "Quality sleep is essential for overall health! Try maintaining a consistent sleep schedule, creating a relaxing bedtime routine, and avoiding screens before bed. I can help you track your sleep patterns and suggest improvements.",
    "Sleep is when your body repairs and rejuvenates! Aim for 7-9 hours of quality sleep per night. Let\x27s discuss your current sleep habits and create a plan for better rest.",
    "Good sleep is foundational to good health! I can help you optimize your sleep environment and routine. How many hours of sleep are you currently getting?" ]

/-- Canned responses of the stress/anxiety bucket. -/
def stress_responses : List String :=
  [ "Mental wellness is just as important as physical health! Consider incorporating mindfulness practices, deep breathing exercises, or gentle yoga into your routine. I\x27m here to support your mental health journey.",
    "Stress management is crucial for overall well-being! I can teach you relaxation techniques and help you develop healthy coping strategies. What\x27s causing you the most stress right now?",
    "Your mental health matters! Let\x27s work together to develop stress management techniques that fit your lifestyle. Remember, it\x27s okay to seek professional help when needed." ]

/-- Canned responses of the weight/lose/gain bucket. -/
def weight_responses : List String :=
  [ "Healthy weight management involves a combination of balanced nutrition and regular physical activity. Remember, sustainable changes work best! I can help you set realistic goals and track your progress.",
    "Weight management is about creating healthy habits that last! Focus on nourishing your body with whole foods and staying active. What\x27s your current approach to weight management?",
    "Let\x27s create a sustainable plan for healthy weight management! I\x27ll help you set realistic goals and develop habits that support your long-term health and well-being." ]

/-- Canned responses of the diabetes bucket. -/
def diabetes_responses : List String :=
  [ "Diabetes management requires careful attention to diet, exercise, and blood glucose monitoring. I can help you understand how different foods and activities affect your blood sugar levels.",
    "Managing diabetes effectively involves balancing medication, diet, and lifestyle. Let\x27s create a comprehensive plan that helps you maintain stable blood glucose levels.",
    "I\x27m here to support your diabetes management journey! Together, we can develop strategies for healthy eating, regular exercise, and effective blood glucose monitoring." ]

/-- Canned responses of the default bucket. -/
def default_responses : List String :=
  [ "I\x27m here to help with your health and wellness journey! I can provide guidance on exercise, nutrition, sleep, stress management, and more. What specific aspect of your health would you like to focus on today?",
    "Your health is my priority! I can assist with personalized advice on fitness, nutrition, mental wellness, and chronic disease management. What would you like to work on together?",
    "I\x27m your personal health coach, ready to support you! Whether it\x27s improving your fitness, optimizing your nutrition, or managing stress, I\x27m here to help you achieve your health goals." ]

/-- Embeds `_generate_contextual_response`: keyword-bucket matching in source
order on the (already lowercased) message, then a random draw from the
bucket's canned responses (the draw index is explicit; the `context_info`
argument only feeds two unused locals in the source and is dropped). -/
def generate_contextual_response (message : String) (choice : ℕ) : String :=
  if pyIn "workout" message || pyIn "exercise" message then pyChoice workout_responses choice
  else if pyIn "diet" message || pyIn "food" message || pyIn "meal" message then
    pyChoice diet_responses choice
  else if pyIn "blood pressure" message || pyIn "heart" message then pyChoice bp_responses choice
  else if pyIn "sleep" message || pyIn "insomnia" message then pyChoice sleep_responses choice
  else if pyIn "stress" message || pyIn "anxiety" message then pyChoice stress_responses choice
  else if pyIn "weight" message || pyIn "lose" message || pyIn "gain" message then
    pyChoice weight_responses choice
  else if pyIn "diabetes" message then pyChoice diabetes_responses choice
  else pyChoice default_responses choice

/-- Embeds `_generate_suggestions` (the trailing `[:3]` is `List.take 3`). -/
def generate_suggestions (message : String) : List String :=
  (if pyIn "workout" message || pyIn "exercise" message then
    ["Create a personalized workout plan", "Learn about different exercise types",
     "Track your fitness progress"]
  else if pyIn "diet" message || pyIn "food" message then
    ["Get nutrition analysis for your meals", "Learn about healthy food choices",
     "Create a meal planning strategy"]
  else if pyIn "sleep" message then
    ["Improve your sleep hygiene", "Track your sleep patterns", "Learn relaxation techniques"]
  else if pyIn "stress" message then
    ["Practice mindfulness exercises", "Learn stress management techniques",
     "Create a self-care routine"]
  else
    ["Set health goals", "Track your progress", "Get personalized recommendations"]).take 3

/-- The dict returned by `_generate_response`. -/
structure GeneratedResponse where
  message : String
  suggestions : List String
  context_type : String
  personality : String
  expertise : List String
  deriving Repr, DecidableEq

/-- Embeds `_generate_response`: lowercase the message, resolve the context
info (default `health_coaching`), and assemble response, suggestions and
context metadata. -/
def generate_response (message context : String) (choice : ℕ) : GeneratedResponse :=
  let message_lower := pyLower message
  let context_info := getContextInfo context
  { message := generate_contextual_response message_lower choice,
    suggestions := generate_suggestions message_lower,
    context_type := context,
    personality := context_info.personality,
    expertise := context_info.expertise }

/-- The dict returned by `process_message`. -/
structure ChatReply where
  message : String
  conversation_id : String
  suggestions : List String
  context_type : String
  personality : String
  expertise : List String
  deriving Repr, DecidableEq

/-- Python truthiness of `if not conversation_id`: `None` and the empty
string are both falsy. -/
def isFalsy : Option String → Bool
  | none => true
  | some s => s == ""

/-- Embeds `process_message`: when the given conversation id is falsy
(`None` or `""`), start a new conversation under the freshly generated
`newId`; then store the user message, generate the reply, store the
assistant message, and return the reply dict.  `newId`, `now` and the random
draw `choice` are the explicit sources of nondeterminism. -/
def process_message (s : ConversationStore) (message user_id context : String)
    (conversation_id : Option String) (newId : String) (now choice : ℕ) :
    ConversationStore × ChatReply :=
  let created := isFalsy conversation_id
  let cid := if created then newId else conversation_id.getD ""
  let s1 := if created then start_conversation s newId user_id context now else s
  let s2 := store_message s1 cid message true user_id now
  let resp := generate_response message context choice
  let s3 := store_message s2 cid resp.message false user_id now
  (s3, ⟨resp.message, cid, resp.suggestions, resp.context_type, resp.personality,
        resp.expertise⟩)

/-- The chat-store operations named by the context-immutability claim. -/
inductive ChatOp where
  | processMsg (message user_id context : String) (conversation_id : Option String)
      (newId : String) (now choice : ℕ)
  | storeMsg (conversation_id message : String) (is_user : Bool) (user_id : String) (now : ℕ)
  | history (conversation_id : String)
  | deleteConv (conversation_id : String)

/-- Effect of one chat operation on the conversation store
(`get_conversation_history` only reads). -/
def applyChatOp (s : ConversationStore) : ChatOp → ConversationStore
  | .processMsg m u c cid nid t ch => (process_message s m u c cid nid t ch).1
  | .storeMsg cid m iu u t => store_message s cid m iu u t
  | .history _ => s
  | .deleteConv cid => delete_conversation s cid

/-- Freshness of the generated uuid: when `process_message` creates a
conversation (falsy id), the fresh `uuid4` id is not already a key of the
store.  The other operations need no side condition. -/
def opFresh (s : ConversationStore) : ChatOp → Prop
  | .processMsg _ _ _ cid nid _ _ => isFalsy cid = true → s.lookup nid = none
  | _ => True

/-! ## Theorems -/

/-- Clamping an integer with `max(0, min(100, s))` lands in `[0, 100]`. -/
theorem clamp100_bounds (s : ℤ) : 0 ≤ max 0 (min 100 s) ∧ max 0 (min 100 s) ≤ 100 :=
  ⟨le_max_left 0 _, max_le (by norm_num) (min_le_left 100 s)⟩

set_option maxHeartbeats 1600000 in
/-- C1 (amended): the food health score starts at 100, applies the documented
calorie/protein/fat/fiber threshold deltas, and clamps to [0, 100]; for
calories = 266, protein = 11, fat = 10, fiber = 2.3 (the pizza record) the
result is 100, because fat = 10 does not exceed the strict `> 10` threshold
and fiber 2.3 > 2 adds +5. -/
theorem C1_health_score_rule (n : FoodRecord) :
    calculate_health_score n = healthScoreSpec n
    ∧ 0 ≤ calculate_health_score n ∧ calculate_health_score n ≤ 100
    ∧ calculate_health_score ⟨266, 11, 33, 10, 23/10, ["B12", "D"], 9/10⟩ = 100 := by
  refine ⟨?_, ?_, ?_, ?_⟩
  · simp only [calculate_health_score, healthScoreSpec, healthScoreSpecDelta]
    split_ifs <;> omega
  · simp only [calculate_health_score]
    exact (clamp100_bounds _).1
  · simp only [calculate_health_score]
    exact (clamp100_bounds _).2
  · norm_num [calculate_health_score]

/-- C1 counterexample: the spec's worked example claims the score for
calories = 266, protein = 11, fat = 10, fiber = 2.3 is 85, but the code
computes 100 (fat = 10 triggers no penalty under the strict `> 10` test, and
fiber 2.3 > 2 earns +5, which the example omits). -/
theorem C1_example_counterexample :
    calculate_health_score ⟨266, 11, 33, 10, 23/10, ["B12", "D"], 9/10⟩ ≠ 85 := by
  norm_num [calculate_health_score]

/-- C7: `get_nutrition_info` performs a case-insensitive lookup in the static
8-entry food table: a name whose lowercase form is a key yields exactly that
table record, an absent name yields a not-found error, and "Apple" and
"apple" resolve to the same record. -/
theorem C7_nutrition_lookup (name : String) :
    (∀ r, food_database.lookup (pyLower name) = some r →
      ∃ res, get_nutrition_info name = .ok res ∧ res.nutrition = r ∧ res.food_name = name)
    ∧ (food_database.lookup (pyLower name) = none →
      get_nutrition_info name = .error ("Food " ++ name ++ " not found in database"))
    ∧ (∃ resA resa, get_nutrition_info "Apple" = .ok resA ∧ get_nutrition_info "apple" = .ok resa
      ∧ resA.nutrition = resa.nutrition) := by
  refine ⟨?_, ?_, ?_⟩
  · intro r h
    refine ⟨⟨name, r, get_health_benefits name, get_preparation_tips name⟩, ?_, rfl, rfl⟩
    simp only [get_nutrition_info, h]
  · intro h
    simp only [get_nutrition_info, h]
  · exact ⟨_, _, rfl, rfl, rfl⟩

/-- C7 witness: the present name "Apple" (case-insensitively) returns the
apple record, and the absent name "Sushi" returns a not-found error. -/
theorem C7_nutrition_lookup_witness :
    (∃ res, get_nutrition_info "Apple" = .ok res
      ∧ res.nutrition = ⟨52, 3/10, 138/10, 2/10, 24/10, ["C", "K"], 8/10⟩
      ∧ res.food_name = "Apple")
    ∧ get_nutrition_info "Sushi" = .error ("Food Sushi not found in database") :=
  ⟨(C7_nutrition_lookup "Apple").1 _ rfl, (C7_nutrition_lookup "Sushi").2.1 rfl⟩

set_option maxHeartbeats 1600000 in
/-- C2: the rule-based fallback risk score equals 0.10 plus the documented
age/BP/BMI/activity increments clamped to [0, 1], always lies in [0, 1], and
for age = 70, systolic BP = 150, weight 98 kg, height 175 cm (BMI 32),
sedentary activity it is exactly 0.55. -/
theorem C2_risk_fallback_rule (hm : HealthMetrics) (ld : LifestyleData) :
    mock_risk_calculation hm ld = riskSpec hm ld
    ∧ 0 ≤ mock_risk_calculation hm ld ∧ mock_risk_calculation hm ld ≤ 1
    ∧ mock_risk_calculation ⟨98, 175, 150⟩ ⟨70, "sedentary"⟩ = 11/20 := by
  refine ⟨?_, ?_, ?_, ?_⟩
  · simp only [mock_risk_calculation, riskSpec, riskSpecIncrement]
    split_ifs <;> ring_nf
  · simp only [mock_risk_calculation]
    exact le_max_left 0 _
  · simp only [mock_risk_calculation]
    exact max_le (by norm_num) (min_le_left 1 _)
  · norm_num [mock_risk_calculation]

/-- C3 counterexample: for the singleton risk mapping with probability
1/250 = 0.004 the code computes `int(99.6) = 99` (truncation), while
`round((1 - mean) * 100) = round(99.6) = 100`. -/
theorem C3_round_counterexample :
    calculate_overall_health_score [1/250]
      ≠ round ((1 - ([(1:ℚ)/250].sum / ([(1:ℚ)/250].length : ℚ))) * 100) := by
  have h1 : calculate_overall_health_score [1/250] = 99 := by
    norm_num [calculate_overall_health_score, pythonInt]
  have h2 : round ((1 - ([(1:ℚ)/250].sum / ([(1:ℚ)/250].length : ℚ))) * 100) = 100 := by
    norm_num [round_eq]
  rw [h1, h2]
  norm_num

/-- C3 (amended): for every non-empty list of risk probabilities in [0, 1],
the aggregate overall health score equals `⌊(1 - mean(risks)) * 100⌋`
(Python `int()` truncation, which agrees with the floor on this nonnegative
value) - not `round` - and lies in [0, 100]. -/
theorem C3_overall_health_score (risks : List ℚ) (hne : risks ≠ [])
    (hb : ∀ r ∈ risks, 0 ≤ r ∧ r ≤ 1) :
    calculate_overall_health_score risks
      = ⌊(1 - risks.sum / (risks.length : ℚ)) * 100⌋
    ∧ 0 ≤ calculate_overall_health_score risks
    ∧ calculate_overall_health_score risks ≤ 100 := by
  have hlen : (0 : ℚ) < (risks.length : ℚ) := by
    exact_mod_cast List.length_pos.mpr hne
  have hsum0 : (0 : ℚ) ≤ risks.sum := List.sum_nonneg fun r hr => (hb r hr).1
  have hsum1 : risks.sum ≤ (risks.length : ℚ) := by
    have := List.sum_le_card_nsmul risks 1 fun r hr => (hb r hr).2
    simpa using this
  have havg0 : (0 : ℚ) ≤ risks.sum / (risks.length : ℚ) := div_nonneg hsum0 hlen.le
  have havg1 : risks.sum / (risks.length : ℚ) ≤ 1 := (div_le_one hlen).mpr hsum1
  have hx0 : (0 : ℚ) ≤ (1 - risks.sum / (risks.length : ℚ)) * 100 := by nlinarith
  have hx1 : (1 - risks.sum / (risks.length : ℚ)) * 100 ≤ 100 := by nlinarith
  have hpy : pythonInt ((1 - risks.sum / (risks.length : ℚ)) * 100)
      = ⌊(1 - risks.sum / (risks.length : ℚ)) * 100⌋ := if_pos hx0
  have hf0 : (0 : ℤ) ≤ ⌊(1 - risks.sum / (risks.length : ℚ)) * 100⌋ :=
    Int.floor_nonneg.mpr hx0
  have hf1 : ⌊(1 - risks.sum / (risks.length : ℚ)) * 100⌋ ≤ 100 := by
    have := Int.floor_le_floor hx1
    simpa using this
  have heq : calculate_overall_health_score risks
      = ⌊(1 - risks.sum / (risks.length : ℚ)) * 100⌋ := by
    simp only [calculate_overall_health_score, hpy]
    omega
  exact ⟨heq, by rw [heq]; exact hf0, by rw [heq]; exact hf1⟩

/-- C3 witness: the risk list [1/2, 1/4] has mean 3/8, and the score is
`⌊62.5⌋ = 62`, inside [0, 100]. -/
theorem C3_overall_health_score_witness :
    calculate_overall_health_score [1/2, 1/4]
      = ⌊(1 - [(1:ℚ)/2, 1/4].sum / ([(1:ℚ)/2, 1/4].length : ℚ)) * 100⌋
    ∧ 0 ≤ calculate_overall_health_score [1/2, 1/4]
    ∧ calculate_overall_health_score [1/2, 1/4] ≤ 100 :=
  C3_overall_health_score [1/2, 1/4] (by simp) (by norm_num)

/-- C4: the fallback prediction applies exactly the documented threshold
ladder, but to `features[0]` and `features[1]` — the x-axis mean and x-axis
std — not to the magnitude mean/std (features 24 and 25) that its own
variable names announce: on the input with x alternating -2 and 0 and
y = z = 0, the code returns standing@0.75 while the ladder on the true
magnitude statistics returns running@0.85. -/
theorem C4_fallback_ladder_on_axis_features :
    (∀ fs : List ℚ, mock_prediction fs = thresholdLadder (fs.getD 0 0) (fs.getD 1 0))
    ∧ extract_features c4Acc emptyAxes
        = [-1, 1, 0, -2, 0, 0, 0, 0, 0, 0, 0, 0,
           0, 0, 0, 0, 0, 0, 0, 0, 0, 0, 0, 0, 1, 1]
    ∧ (extract_features c4Acc emptyAxes).getD 0 0 = npMean c4Acc.x
    ∧ (extract_features c4Acc emptyAxes).getD 24 0
        = npMean (magnitudeList c4Acc.x c4Acc.y c4Acc.z)
    ∧ mock_prediction (extract_features c4Acc emptyAxes) = ("standing", 3/4)
    ∧ thresholdLadder ((extract_features c4Acc emptyAxes).getD 24 0)
        ((extract_features c4Acc emptyAxes).getD 25 0) = ("running", 17/20) := by
  have hmag : magnitudeList altX zeros10 zeros10 = altMag := by
    norm_num [magnitudeList, altX, zeros10, altMag, ratSqrt, natSqrt, natSqrtAux]
  have hax : axisFeatures altX = [-1, 1, 0, -2] := by
    norm_num [axisFeatures, altX, npMean, npVar, npStd, npMax, npMin,
      ratSqrt, natSqrt, natSqrtAux, max_def, min_def]
  have hz : axisFeatures zeros10 = [0, 0, 0, 0] := by
    norm_num [axisFeatures, zeros10, npMean, npVar, npStd, npMax, npMin,
      ratSqrt, natSqrt, natSqrtAux, max_def, min_def]
  have he : axisFeatures ([] : List ℚ) = [0, 0, 0, 0] := by
    norm_num [axisFeatures]
  have hmm : npMean altMag = 1 := by norm_num [npMean, altMag]
  have hms : npStd altMag = 1 := by
    norm_num [npStd, npVar, npMean, altMag, ratSqrt, natSqrt, natSqrtAux]
  have hnx : altX.isEmpty = false := by norm_num [altX]
  have hnz : zeros10.isEmpty = false := by norm_num [zeros10]
  have hfeat : extract_features c4Acc emptyAxes
      = [-1, 1, 0, -2, 0, 0, 0, 0, 0, 0, 0, 0,
         0, 0, 0, 0, 0, 0, 0, 0, 0, 0, 0, 0, 1, 1] := by
    simp [extract_features, c4Acc, emptyAxes, hnx, hnz, hmag, hax, hz, he, hmm, hms]
  refine ⟨fun fs => rfl, hfeat, ?_, ?_, ?_, ?_⟩
  · rw [hfeat]
    norm_num [c4Acc, altX, npMean]
  · rw [hfeat]
    have hc : magnitudeList c4Acc.x c4Acc.y c4Acc.z = altMag := hmag
    rw [hc, hmm]
    simp
  · rw [hfeat]
    norm_num [mock_prediction]
  · rw [hfeat]
    norm_num [thresholdLadder]

set_option maxHeartbeats 800000 in
/-- C5: a request with fewer than 10 accelerometer_x samples is rejected
before the detection service is invoked (the outcome is the same for every
service), but the rejection surfaces as HTTP 500, not a client error: the
handler's own `HTTPException(400, "Insufficient sensor data")` is caught by
its blanket `except Exception` clause and re-raised as a 500 wrapping the
message. -/
theorem C5_short_input_rejected_before_service
    (service : ActivityRequest → Except String ActivityResult)
    (req : ActivityRequest) (h : req.data.accelerometer_x.length < 10) :
    detect_activity_route service req
      = .error ⟨500, "Activity detection failed: 400: Insufficient sensor data"⟩ := by
  simp only [detect_activity_route, if_pos h]
  rfl

/-- C5 witness: the concrete 3-sample request is rejected as a 500, under
the fallback service. -/
theorem C5_short_input_witness :
    shortReq.data.accelerometer_x.length < 10
    ∧ detect_activity_route fallbackService shortReq
      = .error ⟨500, "Activity detection failed: 400: Insufficient sensor data"⟩ :=
  ⟨by decide, C5_short_input_rejected_before_service fallbackService shortReq (by decide)⟩

/-- Length of the batch loop output. -/
theorem runBatch_length (service : ActivityRequest → Except String ActivityResult) :
    ∀ (start : ℕ) (reqs : List ActivityRequest),
      (runBatch service start reqs).length = reqs.length := by
  intro start reqs
  induction reqs generalizing start with
  | nil => rfl
  | cons r rest ih => simp [runBatch, ih]

/-- Entry `i` of the batch loop output, with index offset `start`. -/
theorem runBatch_getElem (service : ActivityRequest → Except String ActivityResult) :
    ∀ (start : ℕ) (reqs : List ActivityRequest) (i : ℕ),
      (runBatch service start reqs)[i]?
        = (reqs[i]?).map fun r =>
            match service r with
            | .ok v => BatchEntry.result (start + i) v
            | .error e => BatchEntry.errorItem (start + i) e := by
  intro start reqs
  induction reqs generalizing start with
  | nil => intro i; rfl
  | cons r rest ih =>
    intro i
    match i with
    | 0 => simp [runBatch]
    | j + 1 =>
      have := ih (start + 1) j
      simp only [runBatch, List.getElem?_cons_succ, this]
      have harith : start + 1 + j = start + (j + 1) := by omega
      rw [harith]

/-- C6 (amended): the batch endpoint returns exactly N entries in input
order; entry i carries a `result` field or an `error` field according to
whether the service call for item i succeeded or raised, and a per-item
failure never aborts the remaining items.  The batch loop performs no
minimum-sample validation of its own, so an item with fewer than 10
accelerometer samples is not, by itself, an error entry. -/
theorem C6_batch_shape (service : ActivityRequest → Except String ActivityResult)
    (reqs : List ActivityRequest) :
    (detect_activity_batch service reqs).results.length = reqs.length
    ∧ (detect_activity_batch service reqs).total_samples = reqs.length
    ∧ ∀ i : ℕ, (detect_activity_batch service reqs).results[i]?
        = (reqs[i]?).map fun r =>
            match service r with
            | .ok v => BatchEntry.result i v
            | .error e => BatchEntry.errorItem i e := by
  refine ⟨runBatch_length service 0 reqs, runBatch_length service 0 reqs, fun i => ?_⟩
  have := runBatch_getElem service 0 reqs i
  simpa using this

/-- C6 counterexample: in the 2-item batch `[goodReq, shortReq]` whose second
item has only 3 accelerometer samples, the batch route produces a `result`
entry - not an `error` entry - for the malformed item: under the fallback
service no entry is an error entry. -/
theorem C6_malformed_item_not_error :
    shortReq.data.accelerometer_x.length < 10
    ∧ (detect_activity_batch fallbackService [goodReq, shortReq]).results.map
        BatchEntry.isError = [false, false] := by
  refine ⟨by decide, ?_⟩
  simp [detect_activity_batch, runBatch, fallbackService, detect_activity_fallback,
    BatchEntry.isError]

/-- Dict assignment then lookup: the assigned key maps to the new value,
every other key is untouched. -/
theorem lookup_storeSet (s : ConversationStore) (k : String) (v : Conversation) (k' : String) :
    (storeSet s k v).lookup k' = if k' = k then some v else s.lookup k' := by
  induction s with
  | nil =>
    simp only [storeSet, List.lookup]
    by_cases h : k' = k
    · simp [h]
    · simp [h, beq_eq_false_iff_ne.mpr h]
  | cons p rest ih =>
    obtain ⟨k0, v0⟩ := p
    by_cases h0 : k0 = k
    · subst h0
      simp only [storeSet, if_pos rfl, List.lookup]
      by_cases h : k' = k0
      · simp [h]
      · simp [beq_eq_false_iff_ne.mpr h, h]
    · simp only [storeSet, if_neg h0, List.lookup]
      by_cases h : k' = k0
      · subst h
        simp [h0]
      · simp [beq_eq_false_iff_ne.mpr h, ih]

/-- Deleting one conversation removes exactly that key. -/
theorem lookup_delete (s : ConversationStore) (cid k : String) :
    (delete_conversation s cid).lookup k = if k = cid then none else s.lookup k := by
  induction s with
  | nil =>
    by_cases h : k = cid <;> simp [delete_conversation, h]
  | cons p rest ih =>
    obtain ⟨k0, v0⟩ := p
    by_cases h0 : k0 = cid
    · subst h0
      by_cases h : k = k0
      · subst h
        simpa [delete_conversation, List.filter, bne] using ih
      · simpa [delete_conversation, List.filter, List.lookup, bne,
          beq_eq_false_iff_ne.mpr h] using ih
    · by_cases h : k = k0
      · subst h
        simp [delete_conversation, List.filter, bne, beq_eq_false_iff_ne.mpr h0,
          List.lookup, h0]
      · simpa [delete_conversation, List.filter, bne, beq_eq_false_iff_ne.mpr h0,
          List.lookup, beq_eq_false_iff_ne.mpr h] using ih

/-- `_store_message` keeps every conversation present, with its context
unchanged. -/
theorem store_message_keeps (s : ConversationStore) (cid m : String) (iu : Bool)
    (u : String) (t : ℕ) (id : String) (conv : Conversation)
    (h : s.lookup id = some conv) :
    ∃ conv'', (store_message s cid m iu u t).lookup id = some conv''
      ∧ conv''.context = conv.context := by
  cases hs : s.lookup cid with
  | none =>
    refine ⟨conv, ?_, rfl⟩
    simp only [store_message, hs]
    exact h
  | some conv0 =>
    by_cases hid : id = cid
    · subst hid
      have hcc : conv = conv0 := by
        rw [h] at hs
        exact Option.some.inj hs
      refine ⟨{ conv0 with messages := conv0.messages ++ [⟨m, iu, t, u⟩], last_activity := t }, ?_, ?_⟩
      · simp only [store_message, hs]
        rw [lookup_storeSet, if_pos rfl]
      · rw [hcc]
    · refine ⟨conv, ?_, rfl⟩
      simp only [store_message, hs]
      rw [lookup_storeSet, if_neg hid]
      exact h

/-- C8: starting a conversation and immediately fetching its history yields
an empty message list, and after exactly one `process_message` on that
conversation id the history is exactly the user message followed by the
assistant message, both timestamped by that call. -/
theorem C8_start_then_one_message (s : ConversationStore) (cid user_id context : String)
    (t1 : ℕ) (msg u2 ctx2 nid2 : String) (t2 choice : ℕ) (hid : cid ≠ "") :
    get_conversation_history (start_conversation s cid user_id context t1) cid = .ok []
    ∧ get_conversation_history
        (process_message (start_conversation s cid user_id context t1) msg u2 ctx2
          (some cid) nid2 t2 choice).1 cid
      = .ok [⟨msg, true, t2, u2⟩,
             ⟨(generate_response msg ctx2 choice).message, false, t2, u2⟩] := by
  have hfalsy : isFalsy (some cid) = false := by
    simp [isFalsy, hid]
  constructor
  · simp [get_conversation_history, start_conversation, lookup_storeSet]
  · simp [get_conversation_history, process_message, store_message, start_conversation,
      lookup_storeSet, hfalsy]

/-- C8 witness: the concrete flow on an empty store with id "conv-1". -/
theorem C8_start_then_one_message_witness :
    get_conversation_history (start_conversation [] "conv-1" "u1" "health_coaching" 1)
      "conv-1" = .ok []
    ∧ get_conversation_history
        (process_message (start_conversation [] "conv-1" "u1" "health_coaching" 1)
          "Hello" "u1" "health_coaching" (some "conv-1") "conv-2" 2 0).1 "conv-1"
      = .ok [⟨"Hello", true, 2, "u1"⟩,
             ⟨(generate_response "Hello" "health_coaching" 0).message, false, 2, "u1"⟩] :=
  C8_start_then_one_message [] "conv-1" "u1" "health_coaching" 1 "Hello" "u1"
    "health_coaching" "conv-2" 2 0 (by decide)

/-- C9: no chat-store operation (`process_message`, `_store_message`,
`get_conversation_history`, `delete_conversation`) ever changes the context
of a stored conversation — under the uuid-freshness condition that a
conversation `process_message` creates gets an unused id — and
`start_conversation` records exactly the supplied context. -/
theorem C9_context_immutable (s : ConversationStore) (op : ChatOp) (id : String)
    (conv conv' : Conversation) (nid u c : String) (t : ℕ) (conv2 : Conversation)
    (hfresh : opFresh s op)
    (h : s.lookup id = some conv)
    (h' : (applyChatOp s op).lookup id = some conv')
    (h2 : (start_conversation s nid u c t).lookup nid = some conv2) :
    conv'.context = conv.context ∧ conv2.context = c := by
  constructor
  · cases op with
    | history cid =>
      simp only [applyChatOp] at h'
      rw [h] at h'
      rw [← Option.some.inj h']
    | deleteConv cid =>
      simp only [applyChatOp] at h'
      rw [lookup_delete] at h'
      by_cases hc : id = cid
      · simp [hc] at h'
      · rw [if_neg hc, h] at h'
        rw [← Option.some.inj h']
    | storeMsg cid m iu u0 t0 =>
      simp only [applyChatOp] at h'
      obtain ⟨cv, hl, hctx⟩ := store_message_keeps s cid m iu u0 t0 id conv h
      rw [hl] at h'
      rw [← Option.some.inj h']
      exact hctx
    | processMsg m u0 c0 cid0 nid0 t0 ch =>
      simp only [applyChatOp, process_message] at h'
      cases hc : isFalsy cid0 with
      | false =>
        simp only [hc, Bool.false_eq_true, if_false] at h'
        obtain ⟨cv1, hl1, hctx1⟩ :=
          store_message_keeps s (cid0.getD "") m true u0 t0 id conv h
        obtain ⟨cv2, hl2, hctx2⟩ :=
          store_message_keeps _ (cid0.getD "")
            (generate_response m c0 ch).message false u0 t0 id cv1 hl1
        rw [hl2] at h'
        rw [← Option.some.inj h']
        rw [hctx2, hctx1]
      | true =>
        have hnone : s.lookup nid0 = none := hfresh hc
        have hne : id ≠ nid0 := by
          intro he
          rw [he, hnone] at h
          exact Option.noConfusion h
        simp only [hc, eq_self_iff_true, if_true] at h'
        have hlook1 : (start_conversation s nid0 u0 c0 t0).lookup id = some conv := by
          rw [start_conversation, lookup_storeSet, if_neg hne]
          exact h
        obtain ⟨cv1, hl1, hctx1⟩ :=
          store_message_keeps _ nid0 m true u0 t0 id conv hlook1
        obtain ⟨cv2, hl2, hctx2⟩ :=
          store_message_keeps _ nid0
            (generate_response m c0 ch).message false u0 t0 id cv1 hl1
        rw [hl2] at h'
        rw [← Option.some.inj h']
        rw [hctx2, hctx1]
  · rw [start_conversation, lookup_storeSet, if_pos rfl] at h2
    rw [← Option.some.inj h2]

/-- C9 witness: a read-only history operation on a one-conversation store
preserves the context, and a fresh `start_conversation` records the supplied
context "mental_wellness". -/
theorem C9_context_immutable_witness :
    (⟨"u", "health_coaching", [], 0, 0⟩ : Conversation).context = "health_coaching"
    ∧ (⟨"u2", "mental_wellness", [], 3, 3⟩ : Conversation).context = "mental_wellness" :=
  C9_context_immutable [("c1", ⟨"u", "health_coaching", [], 0, 0⟩)] (.history "c1") "c1"
    ⟨"u", "health_coaching", [], 0, 0⟩ ⟨"u", "health_coaching", [], 0, 0⟩
    "c2" "u2" "mental_wellness" 3 ⟨"u2", "mental_wellness", [], 3, 3⟩
    trivial (by decide) (by decide) (by decide)

/-- C10 (amended): for every NON-EMPTY conversation id absent from the
store, `process_message` raises no error, echoes that id in its reply, and
leaves the store completely unchanged (both `_store_message` calls no-op on
the unknown id). -/
theorem C10_missing_id_no_effect (s : ConversationStore) (msg u ctx id nid : String)
    (t ch : ℕ) (hid : id ≠ "") (habs : s.lookup id = none) :
    (process_message s msg u ctx (some id) nid t ch).1 = s
    ∧ (process_message s msg u ctx (some id) nid t ch).2.conversation_id = id := by
  have hfalsy : isFalsy (some id) = false := by
    simp [isFalsy, hid]
  constructor
  · simp [process_message, hfalsy, store_message, habs]
  · simp [process_message, hfalsy]

/-- C10 witness: processing against the absent id "missing" echoes that id
and leaves a one-conversation store unchanged. -/
theorem C10_missing_id_no_effect_witness :
    (process_message [("other", ⟨"u", "health_coaching", [], 0, 0⟩)] "hi" "u1"
      "health_coaching" (some "missing") "fresh-id" 7 2).1
      = [("other", ⟨"u", "health_coaching", [], 0, 0⟩)]
    ∧ (process_message [("other", ⟨"u", "health_coaching", [], 0, 0⟩)] "hi" "u1"
      "health_coaching" (some "missing") "fresh-id" 7 2).2.conversation_id = "missing" :=
  C10_missing_id_no_effect [("other", ⟨"u", "health_coaching", [], 0, 0⟩)] "hi" "u1"
    "health_coaching" "missing" "fresh-id" 7 2 (by decide) (by decide)

/-- C10 counterexample: the empty string is a conversation id that is not in
the (empty) store, yet `process_message` with `conversation_id = ""` does
not echo it and does not leave the store unchanged: Python's
`if not conversation_id` treats `""` as missing, so a new conversation is
created under the fresh id and both messages are stored in it. -/
theorem C10_empty_id_counterexample :
    ([] : ConversationStore).lookup "" = none
    ∧ (process_message [] "hello" "u1" "health_coaching" (some "") "fresh-id" 5 0).2.conversation_id ≠ ""
    ∧ ((process_message [] "hello" "u1" "health_coaching" (some "") "fresh-id" 5 0).1.lookup
        "fresh-id").map (fun conv => conv.messages.map ChatMessage.is_user)
      = some [true, false] :=
  ⟨rfl, by decide, by decide⟩

end HealthSphere
